import Mathlib

/-!
Verification of the pyvera change-notification subsystem.

This file embeds the relevant parts of `pyvera/__init__.py` (the job state
machine `_event_device`, the dispatcher `_event`, the registration methods
`register`/`unregister`, the long-poll client `get_changed_devices`, the
poll driver `poll_server_once`, and `VeraDevice.update`) as Lean functions,
and proves properties of the embedded code.

JSON values are modelled at the two depths the protocol uses: change and
alert records are flat objects with scalar fields (`Dict`), and a parsed
long-poll response body is an object whose fields are scalars or arrays of
flat records (`Parsed`).  Python dictionaries are association lists with
unique keys; `dict.get` is `pyGet`.
-/

namespace Pyvera

/-- A scalar JSON value as found in the fields of a change or alert record. -/
inductive JVal where
  | null : JVal
  | jbool (b : Bool) : JVal
  | num (n : Int) : JVal
  | str (s : String) : JVal
deriving Repr, DecidableEq

/-- A flat JSON object (a change record, an alert record, a deviceInfo map). -/
abbrev Dict := List (String × JVal)

/-- A field value of a parsed top-level response: a scalar or an array of
flat records (e.g. the `devices` / `alerts` arrays). -/
inductive RField where
  | scalar (v : JVal) : RField
  | list (xs : List Dict) : RField
deriving Repr, DecidableEq

/-- A parsed JSON response body: either a JSON object (dict) or some other
parseable value (list, number, ...), for which `isinstance(result, dict)`
is false. -/
inductive Parsed where
  | dict (fs : List (String × RField)) : Parsed
  | other : Parsed
deriving Repr, DecidableEq

/-- Python `d.get(k)` on an association-list dictionary: the value of the
first matching key, or `none` for a missing key. -/
def pyGet {α : Type} (d : List (String × α)) (k : String) : Option α :=
  (d.find? (fun p => p.1 == k)).map (fun p => p.2)

/-- Python truthiness of a scalar JSON value (`bool(v)`). -/
def JVal.truthy : JVal → Bool
  | .null => false
  | .jbool b => b
  | .num n => n != 0
  | .str s => s != ""

/-- Whether `chars` starts with `sub` (character-list version). -/
def charsStartWith : List Char → List Char → Bool
  | _, [] => true
  | [], _ :: _ => false
  | a :: as, b :: bs => a == b && charsStartWith as bs

/-- Index of the first occurrence of `sub` in `s`, character-list version. -/
def charsFind : List Char → List Char → Option Nat
  | [], sub => if sub.isEmpty then some 0 else none
  | a :: rest, sub =>
    if charsStartWith (a :: rest) sub then some 0
    else (charsFind rest sub).map (fun i => i + 1)

/-- Python `s.find(sub)`: the lowest index of `sub` in `s`, or `-1`. -/
def pyFind (s sub : String) : Int :=
  match charsFind s.data sub.data with
  | none => -1
  | some i => (i : Int)

/-- Python `int(v)` applied to a scalar JSON value; `none` models a raised
`TypeError`/`ValueError`.  (`int` on a string is modelled by `String.toInt?`,
without Python whitespace stripping, which no claim depends on.) -/
def pyIntOfJVal : JVal → Option Int
  | .null => none
  | .jbool b => some (if b then 1 else 0)
  | .num n => some n
  | .str s => s.toInt?

-- Vera job state codes (pyvera/__init__.py).
def STATE_NO_JOB : Int := -1
def STATE_JOB_WAITING_TO_START : Int := 0
def STATE_JOB_IN_PROGRESS : Int := 1
def STATE_JOB_ERROR : Int := 2
def STATE_JOB_ABORTED : Int := 3
def STATE_JOB_DONE : Int := 4
def STATE_JOB_WAITING_FOR_CALLBACK : Int := 5
def STATE_JOB_REQUEUE : Int := 6
def STATE_JOB_PENDING_DATA : Int := 7
def STATE_NOT_PRESENT : Int := 999

/-- `int(device_data.get("state", STATE_NOT_PRESENT))`; `none` models the
exception raised by `int()` on a non-convertible field value. -/
def rawState (data : Dict) : Option Int :=
  match pyGet data "state" with
  | none => some STATE_NOT_PRESENT
  | some v => pyIntOfJVal v

/-- `device_data.get("comment", "")`, which must be a string for the
subsequent `.find` calls; `none` models the `AttributeError` raised by
`.find` on a non-string field value. -/
def commentOf (data : Dict) : Option String :=
  match pyGet data "comment" with
  | none => some ""
  | some (.str s) => some s
  | some _ => none

/-- A device object as seen by the subscription registry: its object
identity (`oid`, distinct per Python object), the id Vera uses for it, the
runtime class name (`device.__class__.__name__`), and its display name. -/
structure Device where
  oid : Nat
  vera_device_id : Int
  className : String
  name : String
deriving Repr, DecidableEq

/-- A consumer callback: an identity plus whether invoking it raises. -/
structure Callback where
  cid : Nat
  fails : Bool
deriving Repr, DecidableEq

/-- The three resolutions of the job state machine in `_event_device`. -/
inductive Outcome where
  | deliver : Outcome
  | defer : Outcome
  | logError : Outcome
deriving Repr, DecidableEq

/-- The `Sending`/NO_JOB promotion in `_event_device`:
`if sending and state == STATE_NO_JOB: state = STATE_JOB_WAITING_TO_START`,
with `sending = comment.find("Sending") >= 0`. -/
def sendingPromoted (s : Int) (comment : String) : Int :=
  if 0 ≤ pyFind comment "Sending" ∧ s = STATE_NO_JOB
  then STATE_JOB_WAITING_TO_START else s

/-- The VeraLock completion heuristic in `_event_device`: an in-progress
job on a device whose runtime class is `VeraLock`, with a comment that
contains `SUCCESS!`, is forced to `STATE_JOB_DONE`. -/
def lockPromoted (device : Device) (s : Int) (comment : String) : Int :=
  if s = STATE_JOB_IN_PROGRESS ∧ device.className = "VeraLock"
      ∧ 0 ≤ pyFind comment "SUCCESS!"
  then STATE_JOB_DONE else s

/-- The job state machine of `_event_device`, as written in the source:
after the two promotions, a state in the deferred set returns early
(`defer`); then the error check
`not (state == DONE or state == NOT_PRESENT or state == NO_JOB or
(state == ERROR and comment.find("Setting user configuration")))`
logs and returns (`logError`) — note the source uses the *truthiness* of
`find` here, not `find >= 0`; otherwise the update is delivered.
`.error ()` models an exception raised while reading the record (caught by
the per-id handler in `_event`). -/
def classify (device : Device) (data : Dict) : Except Unit Outcome :=
  match rawState data, commentOf data with
  | some s0, some comment =>
    let s1 := sendingPromoted s0 comment
    let s2 := lockPromoted device s1 comment
    if s2 = STATE_JOB_WAITING_TO_START ∨ s2 = STATE_JOB_IN_PROGRESS
        ∨ s2 = STATE_JOB_WAITING_FOR_CALLBACK ∨ s2 = STATE_JOB_REQUEUE
        ∨ s2 = STATE_JOB_PENDING_DATA
    then .ok .defer
    else if ¬(s2 = STATE_JOB_DONE ∨ s2 = STATE_NOT_PRESENT ∨ s2 = STATE_NO_JOB
        ∨ (s2 = STATE_JOB_ERROR ∧ pyFind comment "Setting user configuration" ≠ 0))
    then .ok .logError
    else .ok .deliver
  | _, _ => .error ()

instance exceptDecEq {ε α : Type} [DecidableEq ε] [DecidableEq α] :
    DecidableEq (Except ε α)
  | .ok a, .ok b =>
    if h : a = b then .isTrue (by rw [h]) else .isFalse (by simp [h])
  | .ok _, .error _ => .isFalse (by simp)
  | .error _, .ok _ => .isFalse (by simp)
  | .error a, .error b =>
    if h : a = b then .isTrue (by rw [h]) else .isFalse (by simp [h])

/-- Invoking one callback: raises exactly when the callback is faulty. -/
def runCallback (cb : Callback) (_device : Device) : Except Unit Unit :=
  if cb.fails then .error () else .ok ()

/-- The callback loop at the end of `_event_device`: each callback is
invoked inside `try/except Exception`, so a raising callback is logged and
the loop continues with the remaining callbacks.  Returns the trace of
invocations `(callback, device passed to it)`. -/
def invokeCallbacks (cbs : List Callback) (device : Device) :
    List (Callback × Device) :=
  match cbs with
  | [] => []
  | c :: rest =>
    match runCallback c device with
    | .ok _ => (c, device) :: invokeCallbacks rest device
    | .error _ => (c, device) :: invokeCallbacks rest device

/-- Observable effects of one `_event_device` call: the alerts passed to
`device.set_alerts` (when reached), the record passed to `device.update`
(when called), and the callback invocation trace. -/
structure EventDeviceResult where
  alertsSet : Option (List Dict)
  updateCalled : Option Dict
  invocations : List (Callback × Device)
deriving Repr, DecidableEq

/-- `_event_device(device, device_data, device_alerts)`: reads the state
and comment (any exception there propagates, before `set_alerts`), calls
`device.set_alerts`, then classifies; only a `deliver` resolution calls
`device.update(device_data)` and invokes the callbacks registered for this
device object (`self._callbacks.get(device, ())`). -/
def eventDevice (cbs : Device → List Callback) (device : Device)
    (data : Dict) (alerts : List Dict) : Except Unit EventDeviceResult :=
  match classify device data with
  | .error _ => .error ()
  | .ok .defer => .ok ⟨some alerts, none, []⟩
  | .ok .logError => .ok ⟨some alerts, none, []⟩
  | .ok .deliver =>
    .ok ⟨some alerts, some data, invokeCallbacks (cbs device) device⟩

/-- The unique device ids touched by a poll cycle, collected by `_event`
from the `id` field of change records and the `PK_Device` field of alert
records (records without that field are logged and skipped).  The source
iterates a Python set in unspecified order; the model iterates the
deduplicated collection order, and only order-insensitive properties are
proved about it. -/
def collectIds (ddl adl : List Dict) : List JVal :=
  ((ddl.filterMap (fun d => pyGet d "id"))
    ++ (adl.filterMap (fun a => pyGet a "PK_Device"))).dedup

/-- `device_datas[0] if device_datas else {}` for one device id: the first
change record whose `id` field equals the id value, else the empty dict. -/
def selectedData (ddl : List Dict) (device_id : JVal) : Dict :=
  ((ddl.filter (fun d => pyGet d "id" == some device_id)).head?).getD []

/-- The alert records whose `PK_Device` field equals the id value. -/
def selectedAlerts (adl : List Dict) (device_id : JVal) : List Dict :=
  adl.filter (fun a => pyGet a "PK_Device" == some device_id)

/-- The inner loop of `_event` over the device objects registered under one
id: `_event_device` is called per object; an exception from it is caught by
the per-id `try/except`, which aborts the remaining objects for this id
(their invocations are lost) but not other ids. -/
def eventDevicesTrace (cbs : Device → List Callback) (data : Dict)
    (alerts : List Dict) : List Device → List (Callback × Device)
  | [] => []
  | d :: rest =>
    match eventDevice cbs d data alerts with
    | .error _ => []
    | .ok r => r.invocations ++ eventDevicesTrace cbs data alerts rest

/-- One iteration of the `for device_id in device_ids` loop of `_event`:
`self._devices.get(int(device_id), ())` (a failing `int()` is caught by the
per-id handler and yields nothing), then the registered device objects are
processed with the selected change record and alerts of that id. -/
def eventOneId (devmap : Int → List Device) (cbs : Device → List Callback)
    (ddl adl : List Dict) (device_id : JVal) : List (Callback × Device) :=
  match pyIntOfJVal device_id with
  | none => []
  | some n =>
    eventDevicesTrace cbs (selectedData ddl device_id)
      (selectedAlerts adl device_id) (devmap n)

/-- The callback invocation trace of one `_event(device_data_list,
device_alert_list)` dispatch over registry maps `devmap` (`self._devices`,
defaulting to the empty tuple) and `cbs` (`self._callbacks`). -/
def eventTrace (devmap : Int → List Device) (cbs : Device → List Callback)
    (ddl adl : List Dict) : List (Callback × Device) :=
  ((collectIds ddl adl).map (eventOneId devmap cbs ddl adl)).flatten

/-- A record is readable by `_event_device` without raising: its `state`
field (if any) converts with `int()` and its `comment` field (if any) is a
string. -/
def recordOk (data : Dict) : Bool :=
  (rawState data).isSome && (commentOf data).isSome

/-- The subscription registry state: `self._devices` (device id → list of
registered device objects) and `self._callbacks` (device object → list of
callbacks), both `defaultdict(list)`. -/
structure Registry where
  devices : List (Int × List Device)
  callbacks : List (Device × List Callback)
deriving Repr, DecidableEq

/-- `defaultdict` read access: the stored list, or `[]` for a missing key. -/
def assocGet {κ α : Type} [BEq κ] (m : List (κ × List α)) (k : κ) : List α :=
  ((m.find? (fun p => p.1 == k)).map (fun p => p.2)).getD []

/-- `defaultdict(list)[k]` mutation: applies `f` to the stored list,
inserting the entry (from the default `[]`) when the key is missing. -/
def assocUpd {κ α : Type} [DecidableEq κ] (m : List (κ × List α)) (k : κ)
    (f : List α → List α) : List (κ × List α) :=
  match m with
  | [] => [(k, f [])]
  | (k2, v) :: rest =>
    if k2 = k then (k, f v) :: rest else (k2, v) :: assocUpd rest k f

def Registry.callbacksFor (r : Registry) (d : Device) : List Callback :=
  assocGet r.callbacks d

def Registry.devicesFor (r : Registry) (n : Int) : List Device :=
  assocGet r.devices n

/-- `register(device, callback)`: a falsy device (`None`) is logged and
ignored; otherwise the device is appended under its Vera id and the
callback is appended under the device object. -/
def register (r : Registry) (device : Option Device) (cb : Callback) :
    Registry :=
  match device with
  | none => r
  | some d =>
    { devices := assocUpd r.devices d.vera_device_id (fun l => l ++ [d]),
      callbacks := assocUpd r.callbacks d (fun l => l ++ [cb]) }

/-- Python `list.remove(x)`: removes the first occurrence, raising
`ValueError` (`.error ()`) when `x` is not in the list. -/
def listRemove {α : Type} [DecidableEq α] : List α → α → Except Unit (List α)
  | [], _ => .error ()
  | a :: rest, x =>
    if a = x then .ok rest else (listRemove rest x).map (fun l => a :: l)

/-- `unregister(device, callback)`: a falsy device is logged and ignored;
otherwise `self._callbacks[device].remove(callback)` then
`self._devices[device.vera_device_id].remove(device)` — each `remove`
raises `ValueError` on a missing element, which propagates to the caller
(`.error ()`; the entry the `defaultdict` inserts on a missing key before
the raise is not observable through the default-aware reads). -/
def unregister (r : Registry) (device : Option Device) (cb : Callback) :
    Except Unit Registry :=
  match device with
  | none => .ok r
  | some d =>
    match listRemove (r.callbacksFor d) cb with
    | .error _ => .error ()
    | .ok cbs2 =>
      let r1 : Registry :=
        { r with callbacks := assocUpd r.callbacks d (fun _ => cbs2) }
      match listRemove (r1.devicesFor d.vera_device_id) d with
      | .error _ => .error ()
      | .ok ds2 =>
        .ok { r1 with
              devices := assocUpd r1.devices d.vera_device_id (fun _ => ds2) }

/-- The transport result seen by `get_changed_devices` / `get_alerts`:
whether `raise_for_status()` passes, the body text, and the result of
`response.json()` (`none` models the `ValueError` raised by the parser). -/
structure HttpResponse where
  statusOk : Bool
  text : String
  json? : Option Parsed
deriving Repr, DecidableEq

/-- The errors `get_changed_devices` raises: `requests.HTTPError` from
`raise_for_status`, or `PyveraError` for an empty body, an unparseable
body, or a garbled (non-dict / missing-cursor-field) structure. -/
inductive FetchError where
  | httpError : FetchError
  | pyveraEmpty : FetchError
  | pyveraDecode : FetchError
  | pyveraGarbled : FetchError
deriving Repr, DecidableEq

/-- The long-poll cursor (`timestamp` dict): the values stored under
`dataversion` and `loadtime`. -/
structure Timestamp where
  dataversion : RField
  loadtime : RField
deriving Repr, DecidableEq

/-- `TIMESTAMP_NONE = {"dataversion": 1, "loadtime": 0}`, also the reset
value used after a failed poll. -/
def TIMESTAMP_NONE : Timestamp := ⟨.scalar (.num 1), .scalar (.num 0)⟩

/-- `VeraController.get_changed_devices`, from the transport result on:
`raise_for_status()`, the empty-body check, the JSON decode, the
dict/loadtime/dataversion shape check, then
`(result.get("devices", []), {"loadtime": result.get("loadtime", 0),
"dataversion": result.get("dataversion", 1)})`. -/
def get_changed_devices (r : HttpResponse) :
    Except FetchError (RField × Timestamp) :=
  if !r.statusOk then .error .httpError
  else if r.text == "" then .error .pyveraEmpty
  else
    match r.json? with
    | none => .error .pyveraDecode
    | some (.dict fields) =>
      if (pyGet fields "loadtime").isSome && (pyGet fields "dataversion").isSome
      then
        .ok ((pyGet fields "devices").getD (.list []),
          ⟨(pyGet fields "dataversion").getD (.scalar (.num 1)),
           (pyGet fields "loadtime").getD (.scalar (.num 0))⟩)
      else .error .pyveraGarbled
    | some .other => .error .pyveraGarbled

/-- The failure condition of `get_changed_devices` as the spec lists it:
the parsed structure is not a dict containing both cursor fields. -/
def goodChangeResult : Option Parsed → Bool
  | some (.dict fields) =>
      (pyGet fields "loadtime").isSome && (pyGet fields "dataversion").isSome
  | _ => false

/-- The exceptions distinguished by `poll_server_once`:
`requests.RequestException`, `PyveraError`, and any other exception
(logged and re-raised). -/
inductive PollExn where
  | requestExn : PollExn
  | pyveraExn : PollExn
  | otherExn : PollExn
deriving Repr, DecidableEq

/-- Observable effects of one `poll_server_once` call: the stored cursor
afterwards, whether and with which arguments `_event` ran, whether and
with which cursor `get_alert_data` was invoked, and the returned value
(`.error ()` models a re-raised general exception). -/
structure PollOutcome where
  newLast : Timestamp
  dispatched : Bool
  dispatchArgs : Option (RField × RField)
  alertFetched : Bool
  alertArg : Option Timestamp
  result : Except Unit Bool
deriving Repr, DecidableEq

/-- `AbstractSubscriptionRegistry.poll_server_once`, with the two network
calls `get_device_data` / `get_alert_data` passed as oracles from the
current cursor.  On `RequestException` / `PyveraError` the cursor is reset
to `{"dataversion": 1, "loadtime": 0}` and `False` is returned; any other
exception is re-raised (leaving the cursor as it was); on success the new
cursor is stored, and `_event` runs exactly when the dataversion changed
or `always_update()` holds. -/
def poll_server_once (alwaysUpdate : Bool) (last : Timestamp)
    (getDeviceData : Timestamp → Except PollExn (RField × Timestamp))
    (getAlertData : Timestamp → Except PollExn RField) : PollOutcome :=
  match getDeviceData last with
  | .error .requestExn => ⟨TIMESTAMP_NONE, false, none, false, none, .ok false⟩
  | .error .pyveraExn => ⟨TIMESTAMP_NONE, false, none, false, none, .ok false⟩
  | .error .otherExn => ⟨last, false, none, false, none, .error ()⟩
  | .ok (deviceData, newTimestamp) =>
    if newTimestamp.dataversion ≠ last.dataversion ∨ alwaysUpdate = true then
      match getAlertData last with
      | .error .requestExn =>
        ⟨TIMESTAMP_NONE, false, none, true, some last, .ok false⟩
      | .error .pyveraExn =>
        ⟨TIMESTAMP_NONE, false, none, true, some last, .ok false⟩
      | .error .otherExn => ⟨last, false, none, true, some last, .error ()⟩
      | .ok alertData =>
        ⟨newTimestamp, true, some (deviceData, alertData), true, some last,
          .ok true⟩
    else
      ⟨newTimestamp, false, none, false, none, .ok true⟩

/-- Python truthiness of `dev_info.get(k)`: the key is present and its
value is truthy. -/
def pyTruthyGet (d : Dict) (k : String) : Bool :=
  match pyGet d k with
  | none => false
  | some v => v.truthy

/-- `d[k] = v` on a dict: replaces the value of an existing key in place,
appends a new key at the end. -/
def dictSet (d : Dict) (k : String) (v : JVal) : Dict :=
  if (d.find? (fun p => p.1 == k)).isSome
  then d.map (fun p => if p.1 == k then (k, v) else p)
  else d ++ [(k, v)]

/-- Python `d.update(u)`: sets each key of `u` in order. -/
def dictUpdate (d : Dict) (u : Dict) : Dict :=
  u.foldl (fun acc p => dictSet acc p.1 p.2) d

/-- `VeraDevice.update(params)` on the cached `deviceInfo` dict:
`dev_info.update({k: params[k] for k in params if dev_info.get(k)})`. -/
def deviceInfoUpdate (dev_info params : Dict) : Dict :=
  dictUpdate dev_info (params.filter (fun p => pyTruthyGet dev_info p.1))

/-- C1 (code bug evidence): a change record with job state ERROR whose
comment contains — in fact is exactly — "Setting user configuration" is
classified LOG_ERROR by the source, not DELIVER: `_event_device` tests the
truthiness of `comment.find("Setting user configuration")`, which is `0`
(falsy) when the benign comment starts the string, so the benign-error
exemption fails and the update is dropped with no merge and no callback. -/
theorem c1_benign_error_dropped_at_find_zero :
    (0 ≤ pyFind "Setting user configuration" "Setting user configuration") ∧
    classify ⟨0, 7, "VeraSwitch", "sw"⟩
      [("state", .num 2), ("comment", .str "Setting user configuration")]
      = .ok .logError ∧
    eventDevice (fun _ => [⟨0, false⟩]) ⟨0, 7, "VeraSwitch", "sw"⟩
      [("state", .num 2), ("comment", .str "Setting user configuration")] []
      = .ok ⟨some [], none, []⟩ := by
  refine ⟨by decide, by decide, by decide⟩

/-- C2: for a device of runtime class VeraLock and a change record with
state IN_PROGRESS, a comment containing "SUCCESS!" resolves to DELIVER and
a comment not containing it resolves to DEFER. -/
theorem c2_lock_success_heuristic (device : Device) (data : Dict) (c : String)
    (hlock : device.className = "VeraLock")
    (hstate : rawState data = some STATE_JOB_IN_PROGRESS)
    (hcomment : commentOf data = some c) :
    (0 ≤ pyFind c "SUCCESS!" → classify device data = .ok .deliver) ∧
    (pyFind c "SUCCESS!" < 0 → classify device data = .ok .defer) := by
  constructor
  · intro h
    simp [classify, hstate, hcomment, sendingPromoted, lockPromoted, hlock, h,
      STATE_JOB_IN_PROGRESS, STATE_NO_JOB, STATE_JOB_WAITING_TO_START,
      STATE_JOB_DONE, STATE_NOT_PRESENT, STATE_JOB_ERROR,
      STATE_JOB_WAITING_FOR_CALLBACK, STATE_JOB_REQUEUE, STATE_JOB_PENDING_DATA]
  · intro h
    simp [classify, hstate, hcomment, sendingPromoted, lockPromoted, hlock,
      not_le.mpr h, STATE_JOB_IN_PROGRESS, STATE_NO_JOB,
      STATE_JOB_WAITING_TO_START, STATE_JOB_DONE, STATE_NOT_PRESENT,
      STATE_JOB_ERROR, STATE_JOB_WAITING_FOR_CALLBACK, STATE_JOB_REQUEUE,
      STATE_JOB_PENDING_DATA]

/-- Witness for C2 at a concrete lock device and record. -/
theorem c2_lock_success_heuristic_witness :
    ((⟨1, 5, "VeraLock", "door"⟩ : Device).className = "VeraLock" ∧
      rawState [("state", JVal.num 1), ("comment", JVal.str "d: SUCCESS!")]
        = some STATE_JOB_IN_PROGRESS ∧
      commentOf [("state", JVal.num 1), ("comment", JVal.str "d: SUCCESS!")]
        = some "d: SUCCESS!") ∧
    ((0 ≤ pyFind "d: SUCCESS!" "SUCCESS!" →
        classify ⟨1, 5, "VeraLock", "door"⟩
          [("state", JVal.num 1), ("comment", JVal.str "d: SUCCESS!")]
          = .ok .deliver) ∧
      (pyFind "d: SUCCESS!" "SUCCESS!" < 0 →
        classify ⟨1, 5, "VeraLock", "door"⟩
          [("state", JVal.num 1), ("comment", JVal.str "d: SUCCESS!")]
          = .ok .defer)) :=
  ⟨⟨by decide, by decide, by decide⟩,
    c2_lock_success_heuristic ⟨1, 5, "VeraLock", "door"⟩
      [("state", JVal.num 1), ("comment", JVal.str "d: SUCCESS!")]
      "d: SUCCESS!" (by decide) (by decide) (by decide)⟩

/-- C3 (counterexample): a VeraLock with a record whose state after the
"Sending"/NO_JOB promotion is IN_PROGRESS — i.e. in the claimed deferred
set — is nevertheless delivered when the comment contains "SUCCESS!": the
lock heuristic then forces the state to DONE, `device.update` is called
and the callback invoked. -/
theorem c3_deferred_set_counterexample :
    sendingPromoted 1 "SUCCESS!" = STATE_JOB_IN_PROGRESS ∧
    rawState [("state", JVal.num 1), ("comment", JVal.str "SUCCESS!")]
      = some 1 ∧
    eventDevice (fun _ => [⟨0, false⟩]) ⟨0, 8, "VeraLock", "front"⟩
      [("state", JVal.num 1), ("comment", JVal.str "SUCCESS!")] []
      = .ok ⟨some [], some [("state", JVal.num 1),
          ("comment", JVal.str "SUCCESS!")],
          [(⟨0, false⟩, ⟨0, 8, "VeraLock", "front"⟩)]⟩ := by
  refine ⟨by decide, by decide, by decide⟩

/-- C3 (amended): for every device and record whose state after BOTH
promotions — the "Sending"/NO_JOB promotion and the VeraLock "SUCCESS!"
promotion — lies in the deferred set {0, 1, 5, 6, 7}, `_event_device`
returns without calling `device.update` and without invoking any
callback. -/
theorem c3_deferred_never_delivered (cbs : Device → List Callback)
    (device : Device) (data : Dict) (alerts : List Dict) (s0 : Int)
    (c : String) (hs : rawState data = some s0)
    (hc : commentOf data = some c)
    (hdef : lockPromoted device (sendingPromoted s0 c) c
          = STATE_JOB_WAITING_TO_START
        ∨ lockPromoted device (sendingPromoted s0 c) c
          = STATE_JOB_IN_PROGRESS
        ∨ lockPromoted device (sendingPromoted s0 c) c
          = STATE_JOB_WAITING_FOR_CALLBACK
        ∨ lockPromoted device (sendingPromoted s0 c) c = STATE_JOB_REQUEUE
        ∨ lockPromoted device (sendingPromoted s0 c) c
          = STATE_JOB_PENDING_DATA) :
    eventDevice cbs device data alerts = .ok ⟨some alerts, none, []⟩ := by
  have hcl : classify device data = .ok .defer := by
    simp only [classify, hs, hc]
    exact if_pos hdef
  simp [eventDevice, hcl]

/-- Witness for the amended C3 at a concrete deferred record. -/
theorem c3_deferred_never_delivered_witness :
    (rawState [("state", JVal.num 5)] = some 5 ∧
      commentOf [("state", JVal.num 5)] = some "" ∧
      (lockPromoted ⟨0, 9, "VeraSwitch", "sw"⟩ (sendingPromoted 5 "") ""
          = STATE_JOB_WAITING_TO_START
        ∨ lockPromoted ⟨0, 9, "VeraSwitch", "sw"⟩ (sendingPromoted 5 "") ""
          = STATE_JOB_IN_PROGRESS
        ∨ lockPromoted ⟨0, 9, "VeraSwitch", "sw"⟩ (sendingPromoted 5 "") ""
          = STATE_JOB_WAITING_FOR_CALLBACK
        ∨ lockPromoted ⟨0, 9, "VeraSwitch", "sw"⟩ (sendingPromoted 5 "") ""
          = STATE_JOB_REQUEUE
        ∨ lockPromoted ⟨0, 9, "VeraSwitch", "sw"⟩ (sendingPromoted 5 "") ""
          = STATE_JOB_PENDING_DATA)) ∧
    eventDevice (fun _ => [⟨3, false⟩]) ⟨0, 9, "VeraSwitch", "sw"⟩
      [("state", JVal.num 5)] [] = .ok ⟨some [], none, []⟩ :=
  ⟨⟨by decide, by decide, by decide⟩,
    c3_deferred_never_delivered (fun _ => [⟨3, false⟩]) ⟨0, 9, "VeraSwitch", "sw"⟩
      [("state", JVal.num 5)] [] 5 "" (by decide) (by decide) (by decide)⟩

/-- Helper: `list.remove` on a list not containing the element raises. -/
theorem listRemove_error_of_not_mem {α : Type} [DecidableEq α]
    (l : List α) (x : α) (h : x ∉ l) : listRemove l x = .error () := by
  induction l with
  | nil => rfl
  | cons a rest ih =>
    have hax : ¬a = x := fun he => h (he ▸ List.mem_cons_self a rest)
    have hrest : x ∉ rest := fun hm => h (List.mem_cons_of_mem a hm)
    simp [listRemove, hax, ih hrest, Except.map]

/-- C4 (counterexample): on a registry where the pair was never registered
— here the empty registry — `unregister` with a truthy device raises
(`ValueError` from `list.remove`) rather than being a no-op. -/
theorem c4_unregister_clean_miss_counterexample :
    Registry.callbacksFor ⟨[], []⟩ ⟨0, 3, "VeraSensor", "t"⟩ = [] ∧
    unregister ⟨[], []⟩ (some ⟨0, 3, "VeraSensor", "t"⟩) ⟨0, false⟩
      = .error () := by
  refine ⟨by decide, by decide⟩

/-- C4 (amended): whenever the callback is not among the callbacks
registered for the (truthy) device — in particular for a pair never
registered or already fully unregistered — `unregister` raises
`ValueError` (propagated from `list.remove`); it is not a silent no-op. -/
theorem c4_unregister_clean_miss_raises (r : Registry) (d : Device)
    (cb : Callback) (h : cb ∉ r.callbacksFor d) :
    unregister r (some d) cb = .error () := by
  simp [unregister, listRemove_error_of_not_mem _ _ h]

/-- Witness for the amended C4 on a registry holding one other callback. -/
theorem c4_unregister_clean_miss_raises_witness :
    (⟨5, true⟩ : Callback) ∉
      (register ⟨[], []⟩ (some ⟨0, 3, "VeraSensor", "t"⟩) ⟨1, false⟩
        ).callbacksFor ⟨0, 3, "VeraSensor", "t"⟩ ∧
    unregister (register ⟨[], []⟩ (some ⟨0, 3, "VeraSensor", "t"⟩) ⟨1, false⟩)
      (some ⟨0, 3, "VeraSensor", "t"⟩) ⟨5, true⟩ = .error () :=
  ⟨by decide,
    c4_unregister_clean_miss_raises
      (register ⟨[], []⟩ (some ⟨0, 3, "VeraSensor", "t"⟩) ⟨1, false⟩)
      ⟨0, 3, "VeraSensor", "t"⟩ ⟨5, true⟩ (by decide)⟩

/-- C5: `get_changed_devices` raises exactly when the HTTP status is not a
success, the body is empty, the body is unparseable, or the parsed value
is not a dict containing both `loadtime` and `dataversion`; otherwise it
returns the `devices` field (empty list when absent) and a cursor built
from the `loadtime` and `dataversion` fields of the response. -/
theorem c5_get_changed_devices_contract (r : HttpResponse) :
    ((get_changed_devices r).isOk = false ↔
      (r.statusOk = false ∨ r.text = "" ∨ r.json? = none ∨
        goodChangeResult r.json? = false)) ∧
    (∀ fields lt dv, r.statusOk = true → r.text ≠ "" →
      r.json? = some (.dict fields) →
      pyGet fields "loadtime" = some lt →
      pyGet fields "dataversion" = some dv →
      get_changed_devices r
        = .ok ((pyGet fields "devices").getD (.list []), ⟨dv, lt⟩)) := by
  constructor
  · cases hst : r.statusOk
    · simp [get_changed_devices, hst, Except.isOk, Except.toBool]
    · by_cases htx : r.text = ""
      · simp [get_changed_devices, hst, htx, Except.isOk, Except.toBool]
      · cases hjs : r.json? with
        | none => simp [get_changed_devices, hst, htx, hjs, goodChangeResult,
            Except.isOk, Except.toBool]
        | some p =>
          cases p with
          | other => simp [get_changed_devices, hst, htx, hjs, goodChangeResult,
              Except.isOk, Except.toBool]
          | dict fields =>
            by_cases hl : (pyGet fields "loadtime").isSome <;>
              by_cases hd : (pyGet fields "dataversion").isSome <;>
              simp [get_changed_devices, hst, htx, hjs, goodChangeResult, hl,
                hd, Except.isOk, Except.toBool]
  · intro fields lt dv hst htx hjs hlt hdv
    simp [get_changed_devices, hst, htx, hjs, hlt, hdv]

/-- Witness for C5 on the concrete poll response of scenario A. -/
theorem c5_get_changed_devices_contract_witness :
    ((true : Bool) = true ∧ ("resp" : String) ≠ "" ∧
      pyGet [("loadtime", RField.scalar (.num 10)),
        ("dataversion", RField.scalar (.num 2)),
        ("devices", RField.list [[("id", JVal.num 10)]])] "loadtime"
        = some (.scalar (.num 10)) ∧
      pyGet [("loadtime", RField.scalar (.num 10)),
        ("dataversion", RField.scalar (.num 2)),
        ("devices", RField.list [[("id", JVal.num 10)]])] "dataversion"
        = some (.scalar (.num 2))) ∧
    get_changed_devices ⟨true, "resp",
        some (.dict [("loadtime", RField.scalar (.num 10)),
          ("dataversion", RField.scalar (.num 2)),
          ("devices", RField.list [[("id", JVal.num 10)]])])⟩
      = .ok (.list [[("id", JVal.num 10)]],
          ⟨.scalar (.num 2), .scalar (.num 10)⟩) := by
  refine ⟨⟨rfl, by decide, by decide, by decide⟩, ?_⟩
  have h := (c5_get_changed_devices_contract ⟨true, "resp",
      some (.dict [("loadtime", RField.scalar (.num 10)),
        ("dataversion", RField.scalar (.num 2)),
        ("devices", RField.list [[("id", JVal.num 10)]])])⟩).2
    [("loadtime", RField.scalar (.num 10)),
      ("dataversion", RField.scalar (.num 2)),
      ("devices", RField.list [[("id", JVal.num 10)]])]
    (.scalar (.num 10)) (.scalar (.num 2)) rfl (by decide) rfl (by decide)
    (by decide)
  exact h

/-- C6: when the long-poll or the alert fetch raises `PyveraError`,
`poll_server_once` resets the stored cursor to
`{"dataversion": 1, "loadtime": 0}`, dispatches no `_event`, and returns
`False` instead of propagating the error. -/
theorem c6_pyvera_error_resets_cursor (au : Bool) (last : Timestamp)
    (gdd : Timestamp → Except PollExn (RField × Timestamp))
    (gad : Timestamp → Except PollExn RField) :
    (gdd last = .error .pyveraExn →
      poll_server_once au last gdd gad
        = ⟨TIMESTAMP_NONE, false, none, false, none, .ok false⟩) ∧
    (∀ dd nts, gdd last = .ok (dd, nts) →
      (nts.dataversion ≠ last.dataversion ∨ au = true) →
      gad last = .error .pyveraExn →
      poll_server_once au last gdd gad
        = ⟨TIMESTAMP_NONE, false, none, true, some last, .ok false⟩) := by
  constructor
  · intro h
    simp [poll_server_once, h]
  · intro dd nts h hcond hga
    simp only [poll_server_once, h]
    rw [if_pos hcond]
    simp [hga]

/-- Witness for C6: a failing long-poll, then a failing alert fetch. -/
theorem c6_pyvera_error_resets_cursor_witness :
    ((fun _ : Timestamp => (.error .pyveraExn :
          Except PollExn (RField × Timestamp))) TIMESTAMP_NONE
        = .error .pyveraExn ∧
      poll_server_once false TIMESTAMP_NONE
        (fun _ => .error .pyveraExn) (fun _ => .ok (.list []))
        = ⟨TIMESTAMP_NONE, false, none, false, none, .ok false⟩) ∧
    ((fun _ : Timestamp => (.ok (.list [],
            (⟨.scalar (.num 2), .scalar (.num 7)⟩ : Timestamp)) :
          Except PollExn (RField × Timestamp))) TIMESTAMP_NONE
        = .ok (.list [], ⟨.scalar (.num 2), .scalar (.num 7)⟩) ∧
      ((⟨.scalar (.num 2), .scalar (.num 7)⟩ : Timestamp).dataversion
          ≠ TIMESTAMP_NONE.dataversion ∨ (false : Bool) = true) ∧
      (fun _ : Timestamp => (.error .pyveraExn : Except PollExn RField))
          TIMESTAMP_NONE = .error .pyveraExn ∧
      poll_server_once false TIMESTAMP_NONE
        (fun _ => .ok (.list [], ⟨.scalar (.num 2), .scalar (.num 7)⟩))
        (fun _ => .error .pyveraExn)
        = ⟨TIMESTAMP_NONE, false, none, true, some TIMESTAMP_NONE,
            .ok false⟩) :=
  ⟨⟨rfl, (c6_pyvera_error_resets_cursor false TIMESTAMP_NONE
      (fun _ => .error .pyveraExn) (fun _ => .ok (.list []))).1 rfl⟩,
    ⟨rfl, by decide,  rfl,
      (c6_pyvera_error_resets_cursor false TIMESTAMP_NONE
        (fun _ => .ok (.list [], ⟨.scalar (.num 2), .scalar (.num 7)⟩))
        (fun _ => .error .pyveraExn)).2 (.list [])
        ⟨.scalar (.num 2), .scalar (.num 7)⟩ rfl (by decide) rfl⟩⟩

/-- C7: in a cycle whose long-poll succeeded, the alert fetch happens iff
the new dataversion differs from the stored one or `always_update` holds;
when it happens it is passed the old stored cursor; and whenever the cycle
completes successfully the new cursor is stored, even with no change. -/
theorem c7_alert_fetch_policy (au : Bool) (last : Timestamp)
    (gdd : Timestamp → Except PollExn (RField × Timestamp))
    (gad : Timestamp → Except PollExn RField) (dd : RField) (nts : Timestamp)
    (h : gdd last = .ok (dd, nts)) :
    ((poll_server_once au last gdd gad).alertFetched = true ↔
      (nts.dataversion ≠ last.dataversion ∨ au = true)) ∧
    ((poll_server_once au last gdd gad).alertFetched = true →
      (poll_server_once au last gdd gad).alertArg = some last) ∧
    ((poll_server_once au last gdd gad).result = .ok true →
      (poll_server_once au last gdd gad).newLast = nts) := by
  by_cases hcond : nts.dataversion ≠ last.dataversion ∨ au = true
  · cases hga : gad last with
    | error e =>
      cases e <;>
        · simp only [poll_server_once, h]
          rw [if_pos hcond]
          simp [hga, hcond]
    | ok ad =>
      simp only [poll_server_once, h]
      rw [if_pos hcond]
      simp [hga, hcond]
  · simp only [poll_server_once, h]
    rw [if_neg hcond]
    simp [hcond]

/-- Witness for C7 on a changed-dataversion cycle. -/
theorem c7_alert_fetch_policy_witness :
    ((fun _ : Timestamp => (.ok (.list [],
            (⟨.scalar (.num 3), .scalar (.num 9)⟩ : Timestamp)) :
          Except PollExn (RField × Timestamp))) TIMESTAMP_NONE
        = .ok (.list [], ⟨.scalar (.num 3), .scalar (.num 9)⟩)) ∧
    (((poll_server_once false TIMESTAMP_NONE
          (fun _ => .ok (.list [], ⟨.scalar (.num 3), .scalar (.num 9)⟩))
          (fun _ => .ok (.list []))).alertFetched = true ↔
        ((⟨.scalar (.num 3), .scalar (.num 9)⟩ : Timestamp).dataversion
            ≠ TIMESTAMP_NONE.dataversion ∨ (false : Bool) = true)) ∧
      ((poll_server_once false TIMESTAMP_NONE
          (fun _ => .ok (.list [], ⟨.scalar (.num 3), .scalar (.num 9)⟩))
          (fun _ => .ok (.list []))).alertFetched = true →
        (poll_server_once false TIMESTAMP_NONE
          (fun _ => .ok (.list [], ⟨.scalar (.num 3), .scalar (.num 9)⟩))
          (fun _ => .ok (.list []))).alertArg = some TIMESTAMP_NONE) ∧
      ((poll_server_once false TIMESTAMP_NONE
          (fun _ => .ok (.list [], ⟨.scalar (.num 3), .scalar (.num 9)⟩))
          (fun _ => .ok (.list []))).result = .ok true →
        (poll_server_once false TIMESTAMP_NONE
          (fun _ => .ok (.list [], ⟨.scalar (.num 3), .scalar (.num 9)⟩))
          (fun _ => .ok (.list []))).newLast
          = ⟨.scalar (.num 3), .scalar (.num 9)⟩)) :=
  ⟨rfl, c7_alert_fetch_policy false TIMESTAMP_NONE
    (fun _ => .ok (.list [], ⟨.scalar (.num 3), .scalar (.num 9)⟩))
    (fun _ => .ok (.list [])) (.list [])
    ⟨.scalar (.num 3), .scalar (.num 9)⟩ rfl⟩

/-- Helper: the callback loop invokes every callback in order, each with
the device it is run for, whether or not any of them raises. -/
theorem invokeCallbacks_eq_map (l : List Callback) (d : Device) :
    invokeCallbacks l d = l.map (fun c => (c, d)) := by
  induction l with
  | nil => rfl
  | cons c rest ih =>
    simp only [invokeCallbacks]
    cases hc : runCallback c d <;> simp [hc, ih]

/-- C9: a callback that raises is caught inside `_event_device`: the call
still returns normally with every registered callback (the raising one
included) invoked once, and at the dispatch level the remaining device
objects of the cycle are still processed. -/
theorem c9_callback_exception_isolated (cbs : Device → List Callback)
    (device : Device) (data : Dict) (alerts : List Dict) (c : Callback)
    (_hc : c ∈ cbs device) (_hf : c.fails = true)
    (hdel : classify device data = .ok .deliver) :
    eventDevice cbs device data alerts
      = .ok ⟨some alerts, some data,
          (cbs device).map (fun x => (x, device))⟩ ∧
    ∀ rest, eventDevicesTrace cbs data alerts (device :: rest)
      = (cbs device).map (fun x => (x, device))
        ++ eventDevicesTrace cbs data alerts rest := by
  have he : eventDevice cbs device data alerts
      = .ok ⟨some alerts, some data,
          (cbs device).map (fun x => (x, device))⟩ := by
    simp [eventDevice, hdel, invokeCallbacks_eq_map]
  exact ⟨he, fun rest => by simp [eventDevicesTrace, he]⟩

/-- Witness for C9: a raising callback followed by a second callback. -/
theorem c9_callback_exception_isolated_witness :
    ((⟨0, true⟩ : Callback) ∈
        (fun _ : Device => [(⟨0, true⟩ : Callback), ⟨1, false⟩])
          ⟨0, 4, "VeraSwitch", "sw"⟩ ∧
      (⟨0, true⟩ : Callback).fails = true ∧
      classify ⟨0, 4, "VeraSwitch", "sw"⟩ [("state", JVal.num 4)]
        = .ok .deliver) ∧
    eventDevice (fun _ => [⟨0, true⟩, ⟨1, false⟩]) ⟨0, 4, "VeraSwitch", "sw"⟩
        [("state", JVal.num 4)] []
      = .ok ⟨some [], some [("state", JVal.num 4)],
          [(⟨0, true⟩, ⟨0, 4, "VeraSwitch", "sw"⟩),
            (⟨1, false⟩, ⟨0, 4, "VeraSwitch", "sw"⟩)]⟩ :=
  ⟨⟨by decide, rfl, by decide⟩,
    (c9_callback_exception_isolated (fun _ => [⟨0, true⟩, ⟨1, false⟩])
      ⟨0, 4, "VeraSwitch", "sw"⟩ [("state", JVal.num 4)] [] ⟨0, true⟩
      (by decide) rfl (by decide)).1⟩

/-- Helper: setting a key stores its value. -/
theorem pyGet_dictSet_self (d : Dict) (k : String) (v : JVal) :
    pyGet (dictSet d k v) k = some v := by
  by_cases hpres : (d.find? (fun p => p.1 == k)).isSome
  · simp only [dictSet, hpres, if_pos]
    simp only [pyGet, List.find?_map]
    have hpred : ((fun p : String × JVal => p.1 == k) ∘
        (fun p : String × JVal => if p.1 == k then (k, v) else p))
        = fun p : String × JVal => p.1 == k := by
      funext p
      by_cases hk : p.1 = k <;> simp [Function.comp, hk]
    rw [hpred]
    rcases ho : d.find? (fun p : String × JVal => p.1 == k) with _ | q
    · rw [ho] at hpres; simp at hpres
    · have hq2 : q.1 = k := by
        have := List.find?_some ho
        simpa using this
      simp [Option.map_map, Function.comp, hq2]
  · have hnone : d.find? (fun p : String × JVal => p.1 == k) = none :=
      Option.not_isSome_iff_eq_none.mp hpres
    simp only [dictSet, hpres, if_neg, if_false]
    simp [pyGet, List.find?_append, hnone, List.find?_cons]

theorem pyGet_dictSet_ne (d : Dict) (k : String) (v : JVal) (k2 : String)
    (h : k2 ≠ k) : pyGet (dictSet d k v) k2 = pyGet d k2 := by
  have hkk2 : (k == k2) = false := by
    simp
    exact fun he => h he.symm
  by_cases hpres : (d.find? (fun p => p.1 == k)).isSome
  · simp only [dictSet, hpres, if_pos]
    simp only [pyGet, List.find?_map]
    have hpred : ((fun p : String × JVal => p.1 == k2) ∘
        (fun p : String × JVal => if p.1 == k then (k, v) else p))
        = fun p : String × JVal => p.1 == k2 := by
      funext p
      by_cases hk : p.1 = k <;> simp [Function.comp, hk, hkk2]
    rw [hpred]
    rcases ho : d.find? (fun p : String × JVal => p.1 == k2) with _ | q
    · simp
    · have hq : (q.1 == k2) = true := by
        have := List.find?_some ho
        simpa using this
      have hqk : ¬q.1 = k := by
        have hq2 : q.1 = k2 := by simpa using hq
        rw [hq2]
        exact h
      simp [Option.map_map, Function.comp, hqk]
  · simp only [dictSet, hpres, if_neg, if_false]
    simp [pyGet, List.find?_append, List.find?_cons, hkk2]

/-- Helper: a fold of key assignments none of which touches `k` leaves the
value at `k` unchanged. -/
theorem pyGet_foldl_dictSet_of_ne (u : Dict) (acc : Dict) (k : String)
    (h : ∀ p ∈ u, p.1 ≠ k) :
    pyGet (u.foldl (fun a p => dictSet a p.1 p.2) acc) k = pyGet acc k := by
  induction u generalizing acc with
  | nil => rfl
  | cons p rest ih =>
    have h1 : p.1 ≠ k := h p (List.mem_cons_self p rest)
    rw [List.foldl_cons,
      ih (dictSet acc p.1 p.2) (fun q hq => h q (List.mem_cons_of_mem p hq)),
      pyGet_dictSet_ne acc p.1 p.2 k (Ne.symm h1)]

/-- Helper: a key is absent exactly when no entry carries it. -/
theorem pyGet_eq_none_iff (d : Dict) (k : String) :
    pyGet d k = none ↔ ∀ p ∈ d, p.1 ≠ k := by
  simp [pyGet, List.find?_eq_none]

/-- Helper: the filtered-update fold stores the value `params` holds at a
key that is truthy in the base dict, provided `params` has unique keys. -/
theorem pyGet_foldl_filtered_of_mem (D : Dict) (params : Dict) :
    ∀ (acc : Dict) (k : String) (w : JVal), pyGet params k = some w →
    (params.map Prod.fst).Nodup → pyTruthyGet D k = true →
    pyGet ((params.filter (fun p => pyTruthyGet D p.1)).foldl
      (fun a p => dictSet a p.1 p.2) acc) k = some w := by
  induction params with
  | nil =>
    intro acc k w hw _ _
    simp [pyGet] at hw
  | cons p rest ih =>
    intro acc k w hw hnd ht
    have hnd2 : p.1 ∉ rest.map Prod.fst ∧ (rest.map Prod.fst).Nodup := by
      rw [List.map_cons] at hnd
      exact List.nodup_cons.mp hnd
    by_cases hk : p.1 = k
    · have hpw : p.2 = w := by
        have : pyGet (p :: rest) k = some p.2 := by
          simp [pyGet, List.find?_cons, hk]
        rw [this] at hw
        exact Option.some_injective _ hw
      have hkeep : pyTruthyGet D p.1 = true := by rw [hk]; exact ht
      have hnorest : ∀ q ∈ rest.filter (fun p => pyTruthyGet D p.1),
          q.1 ≠ k := by
        intro q hq hqk
        apply hnd2.1
        rw [hk, ← hqk]
        exact List.mem_map_of_mem Prod.fst (List.mem_of_mem_filter hq)
      rw [List.filter_cons, if_pos hkeep, List.foldl_cons,
        pyGet_foldl_dictSet_of_ne _ _ _ hnorest, ← hk, ← hpw]
      exact pyGet_dictSet_self acc p.1 p.2
    · have hw2 : pyGet rest k = some w := by
        have : pyGet (p :: rest) k = pyGet rest k := by
          simp [pyGet, List.find?_cons, hk]
        rw [← this]
        exact hw
      rw [List.filter_cons]
      by_cases hkeep : pyTruthyGet D p.1 = true
      · rw [if_pos hkeep, List.foldl_cons]
        exact ih _ k w hw2 hnd2.2 ht
      · rw [if_neg hkeep]
        exact ih acc k w hw2 hnd2.2 ht


/-- C10: `VeraDevice.update` copies `params[k]` into the cached deviceInfo
mapping exactly for the keys whose current cached value is truthy: an
absent key is never inserted, a key cached with a falsy value is left
unchanged, a key cached with a truthy value takes the value from `params`
when `params` has it and keeps its value otherwise. -/
theorem c10_update_only_truthy_keys (dev_info params : Dict) (k : String)
    (hnd : (params.map Prod.fst).Nodup) :
    (pyGet dev_info k = none →
      pyGet (deviceInfoUpdate dev_info params) k = none) ∧
    (∀ v, pyGet dev_info k = some v → v.truthy = false →
      pyGet (deviceInfoUpdate dev_info params) k = some v) ∧
    (∀ v w, pyGet dev_info k = some v → v.truthy = true →
      pyGet params k = some w →
      pyGet (deviceInfoUpdate dev_info params) k = some w) ∧
    (∀ v, pyGet dev_info k = some v → v.truthy = true →
      pyGet params k = none →
      pyGet (deviceInfoUpdate dev_info params) k = some v) := by
  refine ⟨?_, ?_, ?_, ?_⟩
  · intro habs
    have hne : ∀ p ∈ params.filter (fun p => pyTruthyGet dev_info p.1),
        p.1 ≠ k := by
      intro p hp hpk
      have := List.of_mem_filter hp
      rw [hpk] at this
      simp [pyTruthyGet, habs] at this
    rw [deviceInfoUpdate, dictUpdate, pyGet_foldl_dictSet_of_ne _ _ _ hne,
      habs]
  · intro v hv hfalsy
    have hne : ∀ p ∈ params.filter (fun p => pyTruthyGet dev_info p.1),
        p.1 ≠ k := by
      intro p hp hpk
      have := List.of_mem_filter hp
      rw [hpk] at this
      simp [pyTruthyGet, hv, hfalsy] at this
    rw [deviceInfoUpdate, dictUpdate, pyGet_foldl_dictSet_of_ne _ _ _ hne,
      hv]
  · intro v w hv htruthy hw
    have ht : pyTruthyGet dev_info k = true := by
      simp [pyTruthyGet, hv, htruthy]
    exact pyGet_foldl_filtered_of_mem dev_info params dev_info k w hw hnd ht
  · intro v hv _htruthy habs
    have hne : ∀ p ∈ params.filter (fun p => pyTruthyGet dev_info p.1),
        p.1 ≠ k := by
      intro p hp hpk
      exact ((pyGet_eq_none_iff params k).mp habs) p
        (List.mem_of_mem_filter hp) hpk
    rw [deviceInfoUpdate, dictUpdate, pyGet_foldl_dictSet_of_ne _ _ _ hne,
      hv]

/-- Witness for C10 on a concrete deviceInfo dict exercising all cases. -/
theorem c10_update_only_truthy_keys_witness :
    (([("batterylevel", JVal.str "55"), ("status", JVal.num 3),
        ("extra", JVal.num 9)] : Dict).map Prod.fst).Nodup ∧
    (pyGet [("name", JVal.str "sw"), ("comment", JVal.str "")] "batterylevel"
        = none →
      pyGet (deviceInfoUpdate [("name", JVal.str "sw"),
        ("comment", JVal.str "")] [("batterylevel", JVal.str "55"),
        ("status", JVal.num 3), ("extra", JVal.num 9)]) "batterylevel"
        = none) ∧
    (∀ v, pyGet [("name", JVal.str "sw"), ("comment", JVal.str "")]
        "batterylevel" = some v → v.truthy = false →
      pyGet (deviceInfoUpdate [("name", JVal.str "sw"),
        ("comment", JVal.str "")] [("batterylevel", JVal.str "55"),
        ("status", JVal.num 3), ("extra", JVal.num 9)]) "batterylevel"
        = some v) ∧
    (∀ v w, pyGet [("name", JVal.str "sw"), ("comment", JVal.str "")]
        "batterylevel" = some v → v.truthy = true →
      pyGet [("batterylevel", JVal.str "55"), ("status", JVal.num 3),
        ("extra", JVal.num 9)] "batterylevel" = some w →
      pyGet (deviceInfoUpdate [("name", JVal.str "sw"),
        ("comment", JVal.str "")] [("batterylevel", JVal.str "55"),
        ("status", JVal.num 3), ("extra", JVal.num 9)]) "batterylevel"
        = some w) ∧
    (∀ v, pyGet [("name", JVal.str "sw"), ("comment", JVal.str "")]
        "batterylevel" = some v → v.truthy = true →
      pyGet [("batterylevel", JVal.str "55"), ("status", JVal.num 3),
        ("extra", JVal.num 9)] "batterylevel" = none →
      pyGet (deviceInfoUpdate [("name", JVal.str "sw"),
        ("comment", JVal.str "")] [("batterylevel", JVal.str "55"),
        ("status", JVal.num 3), ("extra", JVal.num 9)]) "batterylevel"
        = some v) :=
  ⟨by decide,
    c10_update_only_truthy_keys [("name", JVal.str "sw"),
      ("comment", JVal.str "")] [("batterylevel", JVal.str "55"),
      ("status", JVal.num 3), ("extra", JVal.num 9)] "batterylevel"
      (by decide)⟩

/-- Helper: occurrences of a pair in a callback list tagged with one
device: the callback count when the device matches, zero otherwise. -/
theorem count_pair_map (l : List Callback) (dev : Device) (cb : Callback)
    (d : Device) :
    ((l.map (fun c => (c, dev))).count (cb, d))
      = if dev = d then l.count cb else 0 := by
  induction l with
  | nil => simp
  | cons c rest ih =>
    by_cases hdev : dev = d
    · subst hdev
      by_cases hc : c = cb <;> simp [List.count_cons, ih, hc]
    · simp [List.count_cons, ih, hdev]

/-- Helper: a readable record classifies without raising, whatever the
device. -/
theorem classify_ok_of_recordOk (data : Dict) (h : recordOk data = true)
    (dev : Device) : ∃ o, classify dev data = .ok o := by
  rcases Bool.and_eq_true_iff.mp h with ⟨hs, hc⟩
  rcases Option.isSome_iff_exists.mp hs with ⟨s0, hs0⟩
  rcases Option.isSome_iff_exists.mp hc with ⟨c, hc0⟩
  simp only [classify, hs0, hc0]
  split_ifs <;> exact ⟨_, rfl⟩

/-- Helper: the observable result of `_event_device` per classification. -/
theorem eventDevice_invocations (cbs : Device → List Callback) (dev : Device)
    (data : Dict) (alerts : List Dict) (o : Outcome)
    (h : classify dev data = .ok o) :
    ∃ r, eventDevice cbs dev data alerts = .ok r ∧
      r.invocations
        = if o = .deliver then (cbs dev).map (fun c => (c, dev)) else [] := by
  cases o <;> simp [eventDevice, h, invokeCallbacks_eq_map]

/-- Helper: every invocation produced by one `_event_device` call carries
the device it was called for. -/
theorem eventDevice_invocations_snd (cbs : Device → List Callback)
    (dev : Device) (data : Dict) (alerts : List Dict) (r : EventDeviceResult)
    (h : eventDevice cbs dev data alerts = .ok r) :
    ∀ p ∈ r.invocations, p.2 = dev := by
  intro p hp
  rcases ho : classify dev data with _ | o
  · simp [eventDevice, ho] at h
  · rcases eventDevice_invocations cbs dev data alerts o ho with ⟨r2, hr2, hinv⟩
    rw [h] at hr2
    have : r = r2 := by
      have := hr2
      injection this
    subst this
    rw [hinv] at hp
    by_cases hdel : o = .deliver
    · rw [if_pos hdel] at hp
      rcases List.mem_map.mp hp with ⟨c, _, hc⟩
      exact ((Prod.mk.injEq c dev p.1 p.2).mp (by rw [hc])).2.symm
    · rw [if_neg hdel] at hp
      simp at hp

/-- Helper: the second component of any pair in the per-id trace is one of
the processed device objects. -/
theorem eventDevicesTrace_mem_snd (cbs : Device → List Callback) (data : Dict)
    (alerts : List Dict) :
    ∀ (ds : List Device) (p : Callback × Device),
      p ∈ eventDevicesTrace cbs data alerts ds → p.2 ∈ ds := by
  intro ds
  induction ds with
  | nil => intro p hp; simp [eventDevicesTrace] at hp
  | cons dev rest ih =>
    intro p hp
    simp only [eventDevicesTrace] at hp
    rcases he : eventDevice cbs dev data alerts with _ | r
    · rw [he] at hp
      simp at hp
    · rw [he] at hp
      rcases List.mem_append.mp hp with hp1 | hp2
      · rw [eventDevice_invocations_snd cbs dev data alerts r he p hp1]
        exact List.mem_cons_self dev rest
      · exact List.mem_cons_of_mem dev (ih p hp2)

/-- Helper: pair count in the trace of the device-object loop of one id,
when the selected record is readable and delivers for the device of the
pair. -/
theorem count_eventDevicesTrace (cbs : Device → List Callback) (data : Dict)
    (alerts : List Dict) (d : Device) (cb : Callback)
    (hok : recordOk data = true) (hdel : classify d data = .ok .deliver) :
    ∀ ds : List Device,
      (eventDevicesTrace cbs data alerts ds).count (cb, d)
        = ds.count d * (cbs d).count cb := by
  intro ds
  induction ds with
  | nil => simp [eventDevicesTrace]
  | cons dev rest ih =>
    rcases classify_ok_of_recordOk data hok dev with ⟨o, ho⟩
    rcases eventDevice_invocations cbs dev data alerts o ho with ⟨r, hr, hinv⟩
    simp only [eventDevicesTrace, hr]
    rw [List.count_append, ih, List.count_cons]
    by_cases hdev : dev = d
    · subst hdev
      have hodel : o = .deliver := by
        rw [ho] at hdel
        injection hdel
      rw [hinv, if_pos hodel, count_pair_map, if_pos rfl]
      simp only [beq_self_eq_true, if_true]
      ring
    · have hz : r.invocations.count (cb, d) = 0 := by
        rw [hinv]
        by_cases hodel : o = .deliver
        · rw [if_pos hodel, count_pair_map, if_neg hdev]
        · rw [if_neg hodel]
          rfl
      have hbeq : (dev == d) = false := by
        simp
        exact hdev
      rw [hz, hbeq]
      simp

/-- Helper: the sum of a function over a duplicate-free list all of whose
elements but one map to zero is the value at that element. -/
theorem sum_map_eq_single (f : JVal → Nat) :
    ∀ (ids : List JVal) (t : JVal), ids.Nodup → t ∈ ids →
      (∀ v ∈ ids, v ≠ t → f v = 0) → (ids.map f).sum = f t := by
  intro ids
  induction ids with
  | nil => intro t _ ht _; simp at ht
  | cons v rest ih =>
    intro t hnd ht hz
    rcases List.nodup_cons.mp hnd with ⟨hvnotin, hndrest⟩
    rcases List.mem_cons.mp ht with htv | htrest
    · subst htv
      have hzrest : (rest.map f).sum = 0 := by
        apply List.sum_eq_zero
        intro x hx
        rcases List.mem_map.mp hx with ⟨w, hw, hwx⟩
        rw [← hwx]
        exact hz w (List.mem_cons_of_mem _ hw)
          (fun he => hvnotin (he ▸ hw))
      simp [hzrest]
    · have hvz : f v = 0 :=
        hz v (List.mem_cons_self v rest) (fun he => hvnotin (he ▸ htrest))
      rw [List.map_cons, List.sum_cons, hvz,
        ih t hndrest htrest
          (fun w hw hwt => hz w (List.mem_cons_of_mem _ hw) hwt)]
      simp

/-- C8: in one `_event` dispatch over registry maps in which every device
object is filed under its own Vera id, a device object `d` registered once
under its id, with a callback `cb` registered once on it, receives exactly
one invocation of `cb` (with `d` as the argument) when the cycle touches
the id of `d` and the selected change record of that id is readable and
classifies to DELIVER for `d`.  Instantiating `d` with each of two device objects
sharing one id, or `cb` with each of two callbacks on one device, gives
the exactly-once fan-out of the claim. -/
theorem c8_fanout_exactly_once (devmap : Int → List Device)
    (cbs : Device → List Callback) (ddl adl : List Dict) (d : Device)
    (cb : Callback)
    (hmap : ∀ (n : Int) (dev : Device), dev ∈ devmap n →
      dev.vera_device_id = n)
    (hd : (devmap d.vera_device_id).count d = 1)
    (hcb : (cbs d).count cb = 1)
    (hin : JVal.num d.vera_device_id ∈ collectIds ddl adl)
    (hids : ∀ v ∈ collectIds ddl adl,
      pyIntOfJVal v = some d.vera_device_id → v = JVal.num d.vera_device_id)
    (hok : recordOk (selectedData ddl (JVal.num d.vera_device_id)) = true)
    (hdel : classify d (selectedData ddl (JVal.num d.vera_device_id))
      = .ok .deliver) :
    (eventTrace devmap cbs ddl adl).count (cb, d) = 1 := by
  unfold eventTrace
  rw [List.count_flatten, List.map_map]
  have hnd : (collectIds ddl adl).Nodup := List.nodup_dedup _
  rw [sum_map_eq_single _ (collectIds ddl adl) (JVal.num d.vera_device_id)
    hnd hin ?zero]
  case zero =>
    intro v hv hvt
    simp only [Function.comp]
    rcases hpi : pyIntOfJVal v with _ | n
    · simp [eventOneId, hpi]
    · have hn : n ≠ d.vera_device_id := by
        intro he
        exact hvt (hids v hv (he ▸ hpi))
      simp only [eventOneId, hpi]
      refine List.count_eq_zero.mpr ?_
      intro hmem
      have hd2 : d ∈ devmap n :=
        eventDevicesTrace_mem_snd cbs _ _ (devmap n) (cb, d) hmem
      exact hn (hmap n d hd2).symm
  · simp only [Function.comp, eventOneId, pyIntOfJVal]
    rw [count_eventDevicesTrace cbs _ _ d cb hok hdel (devmap d.vera_device_id),
      hd, hcb]

/-- Witness for C8: two device objects sharing id 10, a change record for
id 10 with a DONE job, one callback on each object. -/
theorem c8_fanout_exactly_once_witness :
    ((∀ (n : Int) (dev : Device),
        dev ∈ (fun m : Int => if m = 10 then
          [(⟨0, 10, "VeraSensor", "s"⟩ : Device),
            ⟨1, 10, "VeraArmableDevice", "s"⟩] else []) n →
        dev.vera_device_id = n) ∧
      ((fun m : Int => if m = 10 then
          [(⟨0, 10, "VeraSensor", "s"⟩ : Device),
            ⟨1, 10, "VeraArmableDevice", "s"⟩] else [])
        (⟨0, 10, "VeraSensor", "s"⟩ : Device).vera_device_id).count
          ⟨0, 10, "VeraSensor", "s"⟩ = 1 ∧
      ((fun dev : Device => if dev.oid = 0 then [(⟨7, false⟩ : Callback)]
          else [⟨8, false⟩]) ⟨0, 10, "VeraSensor", "s"⟩).count ⟨7, false⟩
        = 1 ∧
      recordOk (selectedData [[("id", JVal.num 10), ("state", JVal.num 4)]]
        (JVal.num (⟨0, 10, "VeraSensor", "s"⟩ : Device).vera_device_id))
        = true ∧
      classify ⟨0, 10, "VeraSensor", "s"⟩
        (selectedData [[("id", JVal.num 10), ("state", JVal.num 4)]]
          (JVal.num (⟨0, 10, "VeraSensor", "s"⟩ : Device).vera_device_id))
        = .ok .deliver) ∧
    (eventTrace
        (fun m : Int => if m = 10 then
          [(⟨0, 10, "VeraSensor", "s"⟩ : Device),
            ⟨1, 10, "VeraArmableDevice", "s"⟩] else [])
        (fun dev : Device => if dev.oid = 0 then [(⟨7, false⟩ : Callback)]
          else [⟨8, false⟩])
        [[("id", JVal.num 10), ("state", JVal.num 4)]] []).count
      (⟨7, false⟩, ⟨0, 10, "VeraSensor", "s"⟩) = 1 := by
  have hmap : ∀ (n : Int) (dev : Device),
      dev ∈ (fun m : Int => if m = 10 then
        [(⟨0, 10, "VeraSensor", "s"⟩ : Device),
          ⟨1, 10, "VeraArmableDevice", "s"⟩] else []) n →
      dev.vera_device_id = n := by
    intro n dev h
    by_cases hn : n = 10
    · subst hn
      simp at h
      rcases h with h | h <;> rw [h]
    · simp [hn] at h
  refine ⟨⟨hmap, by decide, by decide, by decide, by decide⟩, ?_⟩
  exact c8_fanout_exactly_once
    (fun m : Int => if m = 10 then
      [(⟨0, 10, "VeraSensor", "s"⟩ : Device),
        ⟨1, 10, "VeraArmableDevice", "s"⟩] else [])
    (fun dev : Device => if dev.oid = 0 then [(⟨7, false⟩ : Callback)]
      else [⟨8, false⟩])
    [[("id", JVal.num 10), ("state", JVal.num 4)]] []
    ⟨0, 10, "VeraSensor", "s"⟩ ⟨7, false⟩ hmap (by decide) (by decide)
    (by decide) (by decide) (by decide) (by decide)

end Pyvera
